import Mathlib

/-!
Verification development for the AutoGPT frontend fragment:
the Otto chat widget (`OttoChatWidget.tsx`), the credits hook
(`useCredits`), and the onboarding agent-selection wizard page
(`onboarding/4-agent/page.tsx`).

The TypeScript code is shallowly embedded: React state updates become
explicit state passing, network calls become environment-supplied
outcomes, and each handler becomes a pure function from (environment,
state) to (new state, observable effects).
-/

/-- Embeds `Message` from `OttoChatWidget.tsx`:
`{type: "user" | "assistant", content: string}`. -/
inductive MessageType where
  | user
  | assistant
deriving DecidableEq, Repr

structure Message where
  type : MessageType
  content : String
deriving DecidableEq, Repr

/-- One entry of the `conversation_history` payload field:
`{query: string, response: string}`. -/
structure QAPair where
  query : String
  response : String
deriving DecidableEq, Repr

/-- Embeds the `messages.reduce` in `handleSubmit` (OttoChatWidget.tsx
lines 89-103): walks the transcript and, whenever element `i` is
user-typed and element `i+1` exists and is assistant-typed, pushes
`{query: arr[i].content, response: arr[i+1].content}`. -/
def conversationHistory : List Message → List QAPair
  | [] => []
  | [_] => []
  | m :: n :: rest =>
      (if m.type = MessageType.user ∧ n.type = MessageType.assistant then
        [⟨m.content, n.content⟩]
      else []) ++ conversationHistory (n :: rest)

/-- Embeds JavaScript `String.prototype.trim`: removes leading and
trailing whitespace.  (Stated on the character list so it evaluates by
kernel reduction; `String.trim` in the library has the same behaviour on
the ASCII whitespace involved here but does not reduce.) -/
def jsTrim (s : String) : String :=
  ⟨((s.data.dropWhile Char.isWhitespace).reverse.dropWhile Char.isWhitespace).reverse⟩

/-- The welcome message appended by the mount effect (lines 44-54). -/
def welcomeMessage : Message :=
  ⟨MessageType.assistant, "Hello im Otto! Ask me anything about AutoGPT!"⟩

/-- Embeds the mount effect (lines 44-54): when the transcript is empty it
is replaced by the singleton welcome transcript, otherwise left alone. -/
def welcomeEffect (messages : List Message) : List Message :=
  if messages.length = 0 then [welcomeMessage] else messages

/-- The transient placeholder appended before the ask-call (lines 113-116). -/
def processingPlaceholder : Message :=
  ⟨MessageType.assistant, "Processing your question..."⟩

/-- The sign-in notice text (lines 134 and 154). -/
def signInMessage : String := "Please sign in to use the chat feature."

/-- The generic failure text (line 155). -/
def genericErrorMessage : String :=
  "Sorry, there was an error processing your message. Please try again."

/-- The chat widget's local state used by `handleSubmit`. -/
structure ChatState where
  messages : List Message
  inputValue : String
  isProcessing : Bool
  includeGraphData : Bool
deriving DecidableEq, Repr

/-- The JSON payload of the ask-call (lines 87-108), with the
`Date.now()`-derived `message_id` built from the environment's clock. -/
structure AskPayload where
  query : String
  conversation_history : List QAPair
  user_id : String
  message_id : String
  include_graph_data : Bool
deriving DecidableEq, Repr

/-- Outcome of the `fetch` of the ask-call: either the promise rejects
(network error / JSON parse failure), or it resolves with an HTTP status
and, when the body parses, the `answer` field. -/
inductive AskResult where
  | netError
  | http (status : Nat) (answer : String)
deriving DecidableEq, Repr

/-- The environment a single `handleSubmit` call runs in: whether the
Supabase client is initialized, the session returned by
`supabase.auth.getSession()` (its access token), the authenticated user's
id (`user?.id`), the current clock tick for the message id, and the
ask-call's outcome. -/
structure SubmitEnv where
  supabaseOk : Bool
  session : Option String
  userId : Option String
  now : Nat
  askResult : AskResult
deriving DecidableEq, Repr

/-- Observable result of one `handleSubmit` call: the final widget state,
the toast descriptions shown, and the request body sent (if the fetch was
issued at all). -/
structure SubmitResult where
  state : ChatState
  toasts : List String
  request : Option AskPayload
deriving DecidableEq, Repr

/-- Shallow embedding of `handleSubmit` (OttoChatWidget.tsx lines 61-164).

The guard (line 63) returns with nothing changed when the trimmed input is
empty or a request is in flight.  Otherwise the trimmed user message is
appended (line 70) and the try block runs: a missing Supabase client or a
missing session throws before the placeholder is appended, so the catch
block's `prev.slice(0, -1)` (line 158) removes the user message itself;
only the "No active session" error text maps to the sign-in message
(lines 152-155), every other error - including the 401 path's
"Authentication required" throw - maps to the generic message.  On the
request path the payload is built from the pre-submission `messages`
closure, `includeGraphData` is cleared (line 110), the placeholder is
appended, and the fetch outcome decides which text replaces it.
The `finally` clause (line 162) resets `isProcessing` on every path past
the guard. -/
def handleSubmit (env : SubmitEnv) (st : ChatState) : SubmitResult :=
  if jsTrim st.inputValue = "" ∨ st.isProcessing then
    ⟨st, [], none⟩
  else
    let userMessage := jsTrim st.inputValue
    let st1 : ChatState :=
      { st with
        inputValue := ""
        isProcessing := true
        messages := st.messages ++ [⟨MessageType.user, userMessage⟩] }
    if env.supabaseOk = false then
      ⟨{ st1 with
          messages := st1.messages.dropLast ++ [⟨MessageType.assistant, genericErrorMessage⟩]
          isProcessing := false }, [], none⟩
    else
      match env.session with
      | none =>
          ⟨{ st1 with
              messages := st1.messages.dropLast ++ [⟨MessageType.assistant, signInMessage⟩]
              isProcessing := false }, [], none⟩
      | some _token =>
          let payload : AskPayload :=
            { query := userMessage
              conversation_history := conversationHistory st.messages
              user_id := env.userId.getD "anonymous"
              message_id := s!"{env.now}-web"
              include_graph_data := st.includeGraphData }
          let st2 : ChatState :=
            { st1 with
              includeGraphData := false
              messages := st1.messages ++ [processingPlaceholder] }
          match env.askResult with
          | AskResult.netError =>
              ⟨{ st2 with
                  messages := st2.messages.dropLast ++ [⟨MessageType.assistant, genericErrorMessage⟩]
                  isProcessing := false }, [], some payload⟩
          | AskResult.http status answer =>
              if 200 ≤ status ∧ status ≤ 299 then
                ⟨{ st2 with
                    messages := st2.messages.dropLast ++ [⟨MessageType.assistant, answer⟩]
                    isProcessing := false }, [], some payload⟩
              else if status = 401 then
                ⟨{ st2 with
                    messages := st2.messages.dropLast ++ [⟨MessageType.assistant, genericErrorMessage⟩]
                    isProcessing := false }, [signInMessage], some payload⟩
              else
                ⟨{ st2 with
                    messages := st2.messages.dropLast ++ [⟨MessageType.assistant, genericErrorMessage⟩]
                    isProcessing := false }, [], some payload⟩

/-- One page of transaction history as held/returned by the credits hook:
`{transactions, next_transaction_time}` (useCredits lines 70-74).
Transactions are abstract; the cursor is a timestamp or null. -/
structure TransactionHistoryState (α : Type) where
  transactions : List α
  next_transaction_time : Option Nat
deriving DecidableEq, Repr

/-- The initial history state (useCredits lines 70-74): empty transaction
list and null cursor. -/
def initialTransactionHistory (α : Type) : TransactionHistoryState α :=
  ⟨[], none⟩

/-- A request issued by `api.getTransactionHistory(cursor, pageSize)`. -/
structure HistoryRequest where
  cursor : Option Nat
  pageSize : Nat
deriving DecidableEq, Repr

/-- Embeds one successful `fetchTransactionHistory()` call (useCredits
lines 76-88): it requests `getTransactionHistory(current cursor, 20)` and,
given the response, appends the returned transactions after the
accumulated ones and adopts the response's cursor. -/
def fetchTransactionHistory {α : Type} (st : TransactionHistoryState α)
    (response : TransactionHistoryState α) :
    HistoryRequest × TransactionHistoryState α :=
  (⟨st.next_transaction_time, 20⟩,
   ⟨st.transactions ++ response.transactions, response.next_transaction_time⟩)

/-- A sequence of successful `fetchTransactionHistory()` calls, fed the
given responses in order; returns the requests issued and the final state. -/
def runHistoryFetches {α : Type} (st : TransactionHistoryState α) :
    List (TransactionHistoryState α) →
    List HistoryRequest × TransactionHistoryState α
  | [] => ([], st)
  | r :: rs =>
      let step := fetchTransactionHistory st r
      let rest := runHistoryFetches step.2 rs
      (step.1 :: rest.1, rest.2)

/-- The auto-topup policy `{amount, threshold}` (useCredits lines 22-25). -/
structure AutoTopUpConfig where
  amount : Int
  threshold : Int
deriving DecidableEq, Repr

/-- Backend calls made by the credits hook's auto-topup operations. -/
inductive CreditsApiCall where
  | setAutoTopUp (amount : Int) (threshold : Int)
  | getAutoTopUp
deriving DecidableEq, Repr

/-- Embeds `updateAutoTopUpConfig(amount, threshold)` (useCredits lines
48-54): issues the backend write `setAutoTopUpConfig({amount, threshold})`,
then calls `fetchAutoTopUpConfig()`, which reads the config back and stores
the read's response as the new state.  The read's response is supplied by
the environment. -/
def updateAutoTopUpConfig (amount threshold : Int)
    (readResponse : AutoTopUpConfig) (_st : Option AutoTopUpConfig) :
    List CreditsApiCall × Option AutoTopUpConfig :=
  ([CreditsApiCall.setAutoTopUp amount threshold, CreditsApiCall.getAutoTopUp],
   some readResponse)

/-- The identifiers of one store-agent card on the onboarding page
(4-agent/page.tsx): its `slug` and `creator`. -/
structure StoreAgentCard where
  slug : String
  creator : String
deriving DecidableEq, Repr

/-- Modelled from the spec: the wizard-scoped shared selection state
`{selectedAgentSlug, selectedAgentCreator}` held by `useOnboarding`; the
`useOnboarding`/`setState` implementation lives outside this fragment
(spec section 3, SelectionState). -/
structure WizardSelection where
  selectedAgentSlug : Option String
  selectedAgentCreator : Option String
deriving DecidableEq, Repr

/-- Embeds the `onClick` handler of an `OnboardingAgentCard`
(4-agent/page.tsx lines 64-69 and 78-83): writes the clicked card's slug
and creator into the wizard selection state. -/
def selectAgent (card : StoreAgentCard) (st : WizardSelection) : WizardSelection :=
  { st with
    selectedAgentSlug := some card.slug
    selectedAgentCreator := some card.creator }

/-! ## Helper lemmas -/

/-- Appending a user/assistant pair to a transcript adds exactly that pair
to the derived conversation history. -/
theorem conversationHistory_append_qa (ts : List Message) (q r : String) :
    conversationHistory (ts ++ [⟨MessageType.user, q⟩, ⟨MessageType.assistant, r⟩])
      = conversationHistory ts ++ [⟨q, r⟩] := by
  induction ts with
  | nil => simp [conversationHistory]
  | cons m ts ih =>
      cases ts with
      | nil => simp [conversationHistory]
      | cons n rest =>
          rw [List.cons_append] at ih
          simp only [List.cons_append, List.append_eq, conversationHistory]
          rw [ih, List.append_assoc]

/-- A trailing user message with no following assistant message contributes
no pair to the derived conversation history. -/
theorem conversationHistory_append_user (ts : List Message) (s : String) :
    conversationHistory (ts ++ [⟨MessageType.user, s⟩]) = conversationHistory ts := by
  induction ts with
  | nil => simp [conversationHistory]
  | cons m ts ih =>
      cases ts with
      | nil => simp [conversationHistory]
      | cons n rest =>
          rw [List.cons_append] at ih
          simp only [List.cons_append, List.append_eq, conversationHistory]
          rw [ih]

/-- The accumulated transactions after a run of fetches are the starting
transactions followed by all returned pages in arrival order. -/
theorem runHistoryFetches_transactions {α : Type} (rs : List (TransactionHistoryState α))
    (st : TransactionHistoryState α) :
    (runHistoryFetches st rs).2.transactions
      = st.transactions ++ (rs.map fun r => r.transactions).flatten := by
  induction rs generalizing st with
  | nil => simp [runHistoryFetches]
  | cons r rs ih =>
      simp [runHistoryFetches, fetchTransactionHistory, ih, List.append_assoc]

/-- Every request issued by a run of fetches has page size 20. -/
theorem runHistoryFetches_pageSize {α : Type} (rs : List (TransactionHistoryState α))
    (st : TransactionHistoryState α) (req : HistoryRequest)
    (h : req ∈ (runHistoryFetches st rs).1) : req.pageSize = 20 := by
  induction rs generalizing st with
  | nil => simp [runHistoryFetches] at h
  | cons r rs ih =>
      simp [runHistoryFetches] at h
      rcases h with h | h
      · rw [h]; rfl
      · exact ih _ h

/-- After a nonempty run of fetches, the held cursor is the cursor returned
by the last response. -/
theorem runHistoryFetches_last_cursor {α : Type} (rs : List (TransactionHistoryState α))
    (st : TransactionHistoryState α) (l : TransactionHistoryState α)
    (h : rs.getLast? = some l) :
    (runHistoryFetches st rs).2.next_transaction_time = l.next_transaction_time := by
  induction rs generalizing st with
  | nil => simp at h
  | cons r rs ih =>
      cases rs with
      | nil =>
          simp at h
          subst h
          simp [runHistoryFetches, fetchTransactionHistory]
      | cons r2 rs2 =>
          have h2 : (r2 :: rs2).getLast? = some l := by
            simpa [List.getLast?_cons_cons] using h
          simpa [runHistoryFetches] using ih _ h2

/-! ## Claims -/

/-- C1 (counterexample): with a valid session and an HTTP 401 ask-response,
the last transcript element is the generic retry message, not the
authentication-required message - contradicting the claim that a 401 always
replaces the placeholder with the sign-in message and never the generic one. -/
theorem otto_http401_counterexample :
    (handleSubmit ⟨true, some "tok", some "u1", 5, AskResult.http 401 "x"⟩
        ⟨[welcomeMessage], "hi", false, false⟩).state.messages.getLast?
      = some ⟨MessageType.assistant, genericErrorMessage⟩
    ∧ ¬ ((handleSubmit ⟨true, some "tok", some "u1", 5, AskResult.http 401 "x"⟩
        ⟨[welcomeMessage], "hi", false, false⟩).state.messages.getLast?
      = some ⟨MessageType.assistant, signInMessage⟩) := by
  decide

/-- C1 (amended): on an HTTP 401 ask-response the toast shows the
authentication-required notice, but the placeholder is replaced by the
generic retry message, because the thrown "Authentication required" error
does not match the catch block's "No active session" check. -/
theorem otto_http401_generic_replacement (env : SubmitEnv) (st : ChatState)
    (tok answer : String)
    (h1 : ¬ jsTrim st.inputValue = "") (h2 : st.isProcessing = false)
    (h3 : env.supabaseOk = true) (h4 : env.session = some tok)
    (h5 : env.askResult = AskResult.http 401 answer) :
    (handleSubmit env st).state.messages
        = st.messages ++ [⟨MessageType.user, jsTrim st.inputValue⟩,
                          ⟨MessageType.assistant, genericErrorMessage⟩]
    ∧ (handleSubmit env st).toasts = [signInMessage] := by
  unfold handleSubmit
  rw [if_neg (by simp [h1, h2])]
  simp [h3, h4, h5]

/-- C1 (witness): the amended 401 behaviour at a concrete input. -/
theorem otto_http401_generic_replacement_witness :
    (handleSubmit ⟨true, some "tok", some "u1", 5, AskResult.http 401 "x"⟩
        ⟨[welcomeMessage], "hi", false, false⟩).state.messages
      = [welcomeMessage] ++ [⟨MessageType.user, jsTrim "hi"⟩,
                             ⟨MessageType.assistant, genericErrorMessage⟩]
    ∧ (handleSubmit ⟨true, some "tok", some "u1", 5, AskResult.http 401 "x"⟩
        ⟨[welcomeMessage], "hi", false, false⟩).toasts = [signInMessage] :=
  otto_http401_generic_replacement _ _ "tok" "x" (by decide) rfl rfl rfl rfl

/-- C2: every successful history fetch requests `(current cursor, 20)` and
appends the response's transactions after the accumulated ones; over any
sequence of successful fetches from the initial empty history, the
accumulated transactions are the returned pages concatenated in arrival
order (so the length is the sum of the page sizes), every issued request
has page size 20, and the held cursor after the last fetch equals the
cursor the last response returned (so it is null exactly when the most
recent fetch returned null). -/
theorem credits_history_accumulation (α : Type) (rs : List (TransactionHistoryState α)) :
    (∀ (st r : TransactionHistoryState α),
        (fetchTransactionHistory st r).1 = ⟨st.next_transaction_time, 20⟩
          ∧ (fetchTransactionHistory st r).2.transactions
              = st.transactions ++ r.transactions
          ∧ (fetchTransactionHistory st r).2.next_transaction_time
              = r.next_transaction_time)
    ∧ (runHistoryFetches (initialTransactionHistory α) rs).2.transactions
        = (rs.map fun r => r.transactions).flatten
    ∧ (runHistoryFetches (initialTransactionHistory α) rs).2.transactions.length
        = (rs.map fun r => r.transactions.length).sum
    ∧ (∀ req ∈ (runHistoryFetches (initialTransactionHistory α) rs).1, req.pageSize = 20)
    ∧ (∀ l, rs.getLast? = some l →
        (runHistoryFetches (initialTransactionHistory α) rs).2.next_transaction_time
          = l.next_transaction_time) := by
  have htr := runHistoryFetches_transactions rs (initialTransactionHistory α)
  refine ⟨fun st r => ⟨rfl, rfl, rfl⟩, ?_, ?_, ?_, ?_⟩
  · simpa [initialTransactionHistory] using htr
  · rw [htr]
    simp [initialTransactionHistory, Function.comp_def]
  · exact fun req h => runHistoryFetches_pageSize rs _ req h
  · exact fun l h => runHistoryFetches_last_cursor rs _ l h

/-- C2 (witness): the pagination invariants at a concrete two-page run. -/
theorem credits_history_accumulation_witness :
    (runHistoryFetches (initialTransactionHistory Nat)
        [⟨[1, 2, 3], some 7⟩, ⟨[4, 5], none⟩]).2.next_transaction_time
      = (⟨[4, 5], none⟩ : TransactionHistoryState Nat).next_transaction_time
    ∧ (⟨none, 20⟩ : HistoryRequest).pageSize = 20 :=
  ⟨(credits_history_accumulation Nat [⟨[1, 2, 3], some 7⟩, ⟨[4, 5], none⟩]).2.2.2.2
      ⟨[4, 5], none⟩ (by decide),
   (credits_history_accumulation Nat [⟨[1, 2, 3], some 7⟩, ⟨[4, 5], none⟩]).2.2.2.1
      ⟨none, 20⟩ (by decide)⟩

/-- C3: the conversation-history pairing yields `[{A,B},{C,D}]` on the
transcript `[user A, assistant B, user C, assistant D]`; pairing a
transcript extended by a user/assistant pair adds exactly that pair; and a
trailing unanswered user message contributes no pair. -/
theorem otto_conversation_history_pairing :
    conversationHistory
        [⟨MessageType.user, "A"⟩, ⟨MessageType.assistant, "B"⟩,
         ⟨MessageType.user, "C"⟩, ⟨MessageType.assistant, "D"⟩]
      = [⟨"A", "B"⟩, ⟨"C", "D"⟩]
    ∧ (∀ (ts : List Message) (q r : String),
        conversationHistory (ts ++ [⟨MessageType.user, q⟩, ⟨MessageType.assistant, r⟩])
          = conversationHistory ts ++ [⟨q, r⟩])
    ∧ (∀ (ts : List Message) (s : String),
        conversationHistory (ts ++ [⟨MessageType.user, s⟩]) = conversationHistory ts) :=
  ⟨by rfl, conversationHistory_append_qa, conversationHistory_append_user⟩

/-- C4: `updateAutoTopUpConfig` issues the write and then the follow-up
read, the state after the call is the read's response, and the result does
not depend on the write's input parameters. -/
theorem credits_update_auto_topup_write_then_read :
    ∀ (amount threshold : Int) (readResponse : AutoTopUpConfig)
      (st : Option AutoTopUpConfig),
      (updateAutoTopUpConfig amount threshold readResponse st).1
          = [CreditsApiCall.setAutoTopUp amount threshold, CreditsApiCall.getAutoTopUp]
      ∧ (updateAutoTopUpConfig amount threshold readResponse st).2 = some readResponse
      ∧ ∀ (amount2 threshold2 : Int),
          (updateAutoTopUpConfig amount threshold readResponse st).2
            = (updateAutoTopUpConfig amount2 threshold2 readResponse st).2 :=
  fun _ _ _ _ => ⟨rfl, rfl, fun _ _ => rfl⟩

/-- C5 (counterexample): submitting with no active session leaves a
transcript containing the sign-in notice but neither the just-typed user
message nor any processing placeholder - the notice replaced the user
message, because the "No active session" error is thrown before the
placeholder is appended. -/
theorem otto_no_session_counterexample :
    (handleSubmit ⟨true, none, some "u1", 5, AskResult.http 200 "ans"⟩
        ⟨[welcomeMessage], "hi", false, false⟩).state.messages
      = [welcomeMessage, ⟨MessageType.assistant, signInMessage⟩]
    ∧ ¬ ((⟨MessageType.user, "hi"⟩ : Message) ∈
        (handleSubmit ⟨true, none, some "u1", 5, AskResult.http 200 "ans"⟩
          ⟨[welcomeMessage], "hi", false, false⟩).state.messages)
    ∧ ¬ (processingPlaceholder ∈
        (handleSubmit ⟨true, none, some "u1", 5, AskResult.http 200 "ans"⟩
          ⟨[welcomeMessage], "hi", false, false⟩).state.messages) := by
  decide

/-- C5 (amended): with no active session the operation fails with the
"No active session" error before any placeholder exists, and the sign-in
notice replaces the last transcript element - the just-appended user
message - so the final transcript is the prior transcript plus the notice;
no request is sent and the in-flight flag is reset. -/
theorem otto_no_session_replaces_user_message (env : SubmitEnv) (st : ChatState)
    (h1 : ¬ jsTrim st.inputValue = "") (h2 : st.isProcessing = false)
    (h3 : env.supabaseOk = true) (h4 : env.session = none) :
    (handleSubmit env st).state.messages
        = st.messages ++ [⟨MessageType.assistant, signInMessage⟩]
    ∧ (handleSubmit env st).request = none
    ∧ (handleSubmit env st).state.isProcessing = false := by
  unfold handleSubmit
  rw [if_neg (by simp [h1, h2])]
  simp [h3, h4]

/-- C5 (witness): the amended no-session behaviour at a concrete input. -/
theorem otto_no_session_replaces_user_message_witness :
    (handleSubmit ⟨true, none, some "u1", 5, AskResult.http 200 "ans"⟩
        ⟨[welcomeMessage], "hi", false, false⟩).state.messages
      = [welcomeMessage] ++ [⟨MessageType.assistant, signInMessage⟩]
    ∧ (handleSubmit ⟨true, none, some "u1", 5, AskResult.http 200 "ans"⟩
        ⟨[welcomeMessage], "hi", false, false⟩).request = none
    ∧ (handleSubmit ⟨true, none, some "u1", 5, AskResult.http 200 "ans"⟩
        ⟨[welcomeMessage], "hi", false, false⟩).state.isProcessing = false :=
  otto_no_session_replaces_user_message _ _ (by decide) rfl rfl rfl

/-- C6 (counterexample): a submission that fails on the missing-session
path leaves the include-graph-context flag set, contradicting the claim
that the flag is cleared by the end of every call regardless of outcome. -/
theorem otto_include_graph_flag_counterexample :
    (handleSubmit ⟨true, none, some "u2", 9, AskResult.netError⟩
        ⟨[welcomeMessage], "hello", false, true⟩).state.includeGraphData = true := by
  rfl

/-- C6 (amended): the include-graph-context flag is cleared by the end of
every call that reaches the request phase (client initialized and session
present), whatever the ask-call's outcome; on calls failing earlier
(missing client or missing session) it is left unchanged. -/
theorem otto_include_graph_flag_cleared_with_session (env : SubmitEnv)
    (st : ChatState) (tok : String)
    (h1 : ¬ jsTrim st.inputValue = "") (h2 : st.isProcessing = false)
    (h3 : env.supabaseOk = true) (h4 : env.session = some tok) :
    (handleSubmit env st).state.includeGraphData = false := by
  unfold handleSubmit
  rw [if_neg (by simp [h1, h2])]
  simp [h3, h4]
  rcases h5 : env.askResult with _ | ⟨status, answer⟩ <;> simp [h5]
  split
  · rfl
  · split <;> rfl

/-- C6 (witness): the flag is cleared at a concrete request-phase input. -/
theorem otto_include_graph_flag_cleared_with_session_witness :
    (handleSubmit ⟨true, some "t", some "u", 1, AskResult.http 200 "a"⟩
        ⟨[welcomeMessage], "hi", false, true⟩).state.includeGraphData = false :=
  otto_include_graph_flag_cleared_with_session _ _ "t" (by decide) rfl rfl rfl

/-- C7: a submission whose trimmed input is empty, or made while a request
is in flight, changes nothing: the state (transcript included) is returned
unchanged, no toast is shown and no request is sent. -/
theorem otto_guard_leaves_transcript_unchanged (env : SubmitEnv) (st : ChatState)
    (h : jsTrim st.inputValue = "" ∨ st.isProcessing = true) :
    handleSubmit env st = ⟨st, [], none⟩ := by
  unfold handleSubmit
  rw [if_pos]
  exact h

/-- C7 (witness): a whitespace-only submission at a concrete input. -/
theorem otto_guard_leaves_transcript_unchanged_witness :
    handleSubmit ⟨true, some "t", some "u", 1, AskResult.http 200 "a"⟩
        ⟨[welcomeMessage], "   ", false, false⟩
      = ⟨⟨[welcomeMessage], "   ", false, false⟩, [], none⟩ :=
  otto_guard_leaves_transcript_unchanged _ _ (Or.inl (by decide))

/-- C8: selecting one wizard card after another overwrites the previous
selection - the wizard state afterwards holds exactly the last-selected
card's slug and creator. -/
theorem wizard_last_selection_wins :
    ∀ (card1 card2 : StoreAgentCard) (st : WizardSelection),
      selectAgent card1 (selectAgent card2 st)
        = ⟨some card1.slug, some card1.creator⟩ :=
  fun _ _ _ => rfl

/-- C9: any submission that passes the guard ends with the in-flight flag
reset to false, on success and on every failure path alike. -/
theorem otto_single_flight_reset (env : SubmitEnv) (st : ChatState)
    (h1 : ¬ jsTrim st.inputValue = "") (h2 : st.isProcessing = false) :
    (handleSubmit env st).state.isProcessing = false := by
  unfold handleSubmit
  rw [if_neg (by simp [h1, h2])]
  rcases env with ⟨sb, sess, uid, now, ar⟩
  cases sb <;> rcases sess with _ | tok <;> rcases ar with _ | ⟨status, answer⟩ <;>
    simp_all
  all_goals (split <;> simp_all)
  all_goals (split <;> simp_all)

/-- C9 (witness): the in-flight flag is reset at a concrete input. -/
theorem otto_single_flight_reset_witness :
    (handleSubmit ⟨true, some "t", some "u", 1, AskResult.http 200 "a"⟩
        ⟨[welcomeMessage], "hi", false, false⟩).state.isProcessing = false :=
  otto_single_flight_reset _ _ (by decide) rfl

/-- C10: the mount effect on an empty transcript yields exactly the
one-element transcript holding the assistant-typed welcome message, so
after mount the transcript is nonempty and starts with an assistant turn. -/
theorem otto_welcome_on_mount :
    welcomeEffect [] = [welcomeMessage]
    ∧ (welcomeEffect []).length = 1
    ∧ (welcomeEffect []).head? = some welcomeMessage
    ∧ welcomeMessage.type = MessageType.assistant :=
  ⟨rfl, rfl, rfl, rfl⟩
